import Mathlib

/-!
Verification development for the Three.js ocean demo.

The JavaScript sources are shallowly embedded: JS numbers that only ever
hold exact decimal values are modelled as `ℚ`, shader / trigonometric
quantities as `ℝ`, throwing constructors as `Except String`, and the GPU
pass choreography as explicit pass descriptors over a buffer enumeration.
-/

namespace OceanDemo

/-! ### OceanFFT configuration (src/ocean/simulation/OceanFFT.js) -/

/-- The 32-bit pattern JavaScript's ToInt32 produces for an integer: the
residue modulo 2^32.  (The sign reinterpretation of the top bit does not
change the pattern the bitwise operators work on.) -/
def toUint32 (n : ℤ) : ℕ :=
  (n % 4294967296).toNat

/-- JavaScript's bitwise `a & b`: both operands pass through ToInt32
(wrapping modulo 2^32), the 32-bit patterns are ANDed, and the result is
read back as a signed 32-bit integer. -/
def jsAnd (a b : ℤ) : ℤ :=
  let r := toUint32 a &&& toUint32 b
  if r < 2147483648 then (r : ℤ) else (r : ℤ) - 4294967296

/-- Helper `ensurePowerOfTwo` from `OceanFFT.js`: it first clamps the input
to `Math.max(2, Math.floor(value))` and then throws when the bitwise test
`(integerValue & (integerValue - 1)) !== 0` fires — with `&` carrying
JavaScript's ToInt32 wrap of both operands. -/
def ensurePowerOfTwo (value : ℚ) : Except String ℤ :=
  let integerValue : ℤ := max 2 ⌊value⌋
  if jsAnd integerValue (integerValue - 1) ≠ 0 then
    Except.error "FFT resolution must be power of two"
  else
    Except.ok integerValue

/-- Constructor options of `OceanFFT` (`options.resolution`, `options.size`,
`options.choppiness`, `options.windSpeed`, `options.windDirection`); the wind
direction is in radians, so it is carried as a real number. -/
structure OceanFFTOptions where
  resolution : ℚ := 256
  size : ℚ := 1000
  choppiness : ℚ := 8/5
  windSpeed : ℚ := 12
  windDirection : ℝ := 0

/-- The scalar fields of an `OceanFFT` instance.  The derived `windVector`
(`(cos d, sin d) * windSpeed`) is omitted; it is a pure function of
`windSpeed` and `windDirection`. -/
structure OceanFFTState where
  resolution : ℤ
  size : ℚ
  choppiness : ℚ
  windSpeed : ℚ
  windDirection : ℝ
  deltaTime : ℚ
  initialized : Bool
  needsSpectrumInit : Bool
  pingPhase : Bool

/-- The `OceanFFT` constructor: `ensurePowerOfTwo` may throw; every other
field is stored without validation (in particular `options.size` is written
to `this.size` as-is).  `setWind` clamps the speed to at least `0.01` and
marks the spectrum dirty. -/
def OceanFFT.mk (options : OceanFFTOptions) : Except String OceanFFTState :=
  (ensurePowerOfTwo options.resolution).map fun res =>
    { resolution := res
      size := options.size
      choppiness := options.choppiness
      windSpeed := max (1/100) options.windSpeed
      windDirection := options.windDirection
      deltaTime := 1/60
      initialized := false
      needsSpectrumInit := true
      pingPhase := true }

/-- `OceanFFT.setSize`: clamps to at least 32 and marks the spectrum dirty
(it never throws). -/
def OceanFFT.setSize (size : ℚ) (s : OceanFFTState) : OceanFFTState :=
  { s with size := max 32 size, needsSpectrumInit := true }

/-- The `deltaTime` clamp at the top of `OceanFFT.update`:
`Math.min(0.1, Math.max(1.0 / 240.0, deltaTime))`. -/
def OceanFFT.clampDeltaTime (deltaTime : ℚ) : ℚ :=
  min (1/10) (max (1/240) deltaTime)

/-- Scalar-state effect of `OceanFFT.update(deltaTime)`: the clamped step is
stored, the spectrum-dirty flag is consumed, the first `#renderWavePhase`
call marks the instance initialized, and the phase ping-pong flag flips
exactly once.  The function is total: no `deltaTime` value is rejected. -/
def OceanFFT.update (s : OceanFFTState) (deltaTime : ℚ) : OceanFFTState :=
  { s with
    deltaTime := OceanFFT.clampDeltaTime deltaTime
    needsSpectrumInit := false
    initialized := true
    pingPhase := !s.pingPhase }

/-! ### OceanLODGrid (src/ocean/render/OceanLODGrid.js) -/

/-- One geometry patch of the LOD grid: plane extents, clamped segment
counts, the mesh position set by `createPatch` (including the per-level
depth bias `-levelIndex * 0.0045`) and the render-order rule
`1000 - levelIndex`. -/
structure OceanPatch where
  width : ℚ
  height : ℚ
  segX : ℤ
  segY : ℤ
  posX : ℚ
  posY : ℚ
  posZ : ℚ
  renderOrder : ℤ
deriving DecidableEq

/-- Helper `clampSegments` from `OceanLODGrid.js`:
`Math.min(512, Math.max(2, Math.round(value)))`.  JavaScript's
`Math.round x = ⌊x + 1/2⌋`, which is Mathlib's `round`. -/
def clampSegments (value : ℚ) : ℤ :=
  min 512 (max 2 (round value))

/-- Helper `createPatch` from `OceanLODGrid.js` (geometry extents, segment
clamping, position with depth bias, render order). -/
def createPatch (width height segX segY offsetX offsetZ : ℚ) (levelIndex : ℕ) : OceanPatch :=
  { width := width
    height := height
    segX := clampSegments segX
    segY := clampSegments segY
    posX := offsetX
    posY := -(levelIndex : ℚ) * (9/2000)
    posZ := offsetZ
    renderOrder := 1000 - (levelIndex : ℤ) }

/-- The four strip patches of ring `i ≥ 1` exactly as the loop body of
`OceanLODGrid.#build` computes them. -/
def ringPatches (levels : List ℚ) (baseCellSize ringOverlap : ℚ) (i : ℕ) : List OceanPatch :=
  let inner := levels.getD (i - 1) 0
  let outer := levels.getD i 0
  let ringWidth := (outer - inner) * (1/2)
  let cellSize := baseCellSize * 2 ^ i
  let overlap := min (ringWidth * (1/4)) (ringOverlap * cellSize)
  let longSegments := outer / cellSize
  let shortSegments := (ringWidth + overlap * 2) / cellSize
  let innerSegments := inner / cellSize
  let stripHeight := ringWidth + overlap * 2
  let stripWidth := outer + overlap * 2
  let innerStrip := inner + overlap * 2
  let distanceFromCenter := inner * (1/2) + ringWidth * (1/2)
  [createPatch stripWidth stripHeight longSegments shortSegments 0 (-distanceFromCenter) i,
    createPatch stripWidth stripHeight longSegments shortSegments 0 distanceFromCenter i,
    createPatch stripHeight innerStrip shortSegments innerSegments (-distanceFromCenter) 0 i,
    createPatch stripHeight innerStrip shortSegments innerSegments distanceFromCenter 0 i]

/-- `OceanLODGrid.#build`, run by the constructor: the only validation is
`!Array.isArray(this.levels) || this.levels.length < 2` (a Lean `List` is
always an array, so only the length check remains), performed before any
patch is created; afterwards it emits the center patch and four strips per
outer level. -/
def OceanLODGrid.build (levels : List ℚ) (baseCellSize ringOverlap : ℚ) :
    Except String (List OceanPatch) :=
  if levels.length < 2 then
    Except.error "Ocean LOD requires at least 2 level sizes."
  else
    let centerSize := levels.getD 0 0
    let centerSegments := centerSize / baseCellSize
    Except.ok
      (createPatch centerSize centerSize centerSegments centerSegments 0 0 0 ::
        (List.range' 1 (levels.length - 1)).flatMap (ringPatches levels baseCellSize ringOverlap))

/-- The `OceanLODGrid` constructor with a possibly-`undefined` `levels`
argument: `!Array.isArray(undefined)` is true, so an undefined level list
throws the same `#build` error before any patch exists; an actual array
proceeds as `OceanLODGrid.build`. -/
def OceanLODGrid.buildJs (levels : Option (List ℚ)) (baseCellSize ringOverlap : ℚ) :
    Except String (List OceanPatch) :=
  match levels with
  | none => Except.error "Ocean LOD requires at least 2 level sizes."
  | some actualLevels => OceanLODGrid.build actualLevels baseCellSize ringOverlap

/-- Transform of the LOD grid's `group` object: position plus scale, the
only mutable state `update` and `setLodScale` touch. -/
structure GridTransform where
  posX : ℚ
  posY : ℚ
  posZ : ℚ
  scaleX : ℚ
  scaleY : ℚ
  scaleZ : ℚ
deriving DecidableEq

/-- Fresh `Group` transform (origin position, unit scale). -/
def gridTransformInit : GridTransform := ⟨0, 0, 0, 1, 1, 1⟩

/-- `OceanLODGrid.update(cameraPosition)`:
`group.position.x = Math.floor(cameraPosition.x / snapSize) * snapSize`
and likewise for `z`; nothing else is modified. -/
def OceanLODGrid.update (snapSize cameraX cameraZ : ℚ) (t : GridTransform) : GridTransform :=
  { t with
    posX := (⌊cameraX / snapSize⌋ : ℚ) * snapSize
    posZ := (⌊cameraZ / snapSize⌋ : ℚ) * snapSize }

/-- `OceanLODGrid.setLodScale(scale)`:
`clamped = Math.max(0.5, Math.min(2.5, scale))`, then
`group.scale.set(clamped, 1.0, clamped)`. -/
def OceanLODGrid.setLodScale (scale : ℚ) (t : GridTransform) : GridTransform :=
  let clamped := max (1/2) (min (5/2) scale)
  { t with scaleX := clamped, scaleY := 1, scaleZ := clamped }

/-- `m` is a multiple of `snapSize` at minimal distance from `value` —
the "nearest multiple" reading of the spec. -/
def IsNearestMultiple (snapSize value m : ℚ) : Prop :=
  (∃ k : ℤ, m = (k : ℚ) * snapSize) ∧ ∀ k : ℤ, |value - m| ≤ |value - (k : ℚ) * snapSize|

/-! ### OceanSystem (src/ocean/OceanSystem.js) -/

/-- One entry of `QUALITY_PRESETS`. -/
structure QualityConfig where
  fftResolution : ℚ
  simulationSize : ℚ
  levelSizes : List ℚ
  baseCellSize : ℚ
  ringOverlap : ℚ
  displacementScale : ℚ
deriving DecidableEq

/-- The `performance` preset. -/
def performanceConfig : QualityConfig :=
  ⟨128, 840, [224, 448, 896, 1792, 3584, 7168, 14336], 7/4, 2/5, 19/20⟩

/-- The `balanced` preset. -/
def balancedConfig : QualityConfig :=
  ⟨256, 980, [256, 512, 1024, 2048, 4096, 8192, 16384], 6/5, 1/2, 11/10⟩

/-- The `cinematic` preset. -/
def cinematicConfig : QualityConfig :=
  ⟨512, 1180, [320, 640, 1280, 2560, 5120, 10240, 20480], 19/20, 3/5, 31/25⟩

/-- A JavaScript quality object as the rest of `rebuild` sees it: every
field may be `undefined`.  Own preset entries have all fields defined, a
value inherited from `Object.prototype` (a function or `Object.prototype`
itself) has none of them. -/
structure JsQualityObject where
  fftResolution : Option ℚ
  simulationSize : Option ℚ
  levelSizes : Option (List ℚ)
  baseCellSize : Option ℚ
  ringOverlap : Option ℚ
  displacementScale : Option ℚ
deriving DecidableEq

/-- An own preset entry of `QUALITY_PRESETS` seen as a JS object. -/
def qualityObjectOf (c : QualityConfig) : JsQualityObject :=
  ⟨some c.fftResolution, some c.simulationSize, some c.levelSizes,
    some c.baseCellSize, some c.ringOverlap, some c.displacementScale⟩

/-- The inherited `Object.prototype` value hit by `QUALITY_PRESETS[name]`
for property names such as `"constructor"`: truthy (so the
`|| QUALITY_PRESETS.balanced` fallback does not apply) but with every
quality field `undefined`. -/
def inheritedJunkObject : JsQualityObject :=
  ⟨none, none, none, none, none, none⟩

/-- The property names a plain object literal inherits from
`Object.prototype`, all bound to truthy values. -/
def protoChainNames : List String :=
  ["constructor", "hasOwnProperty", "isPrototypeOf", "propertyIsEnumerable",
    "toLocaleString", "toString", "valueOf", "__proto__", "__defineGetter__",
    "__defineSetter__", "__lookupGetter__", "__lookupSetter__"]

/-- Property lookup `QUALITY_PRESETS[name]` on the preset object literal:
an own key yields its preset, a name inherited from `Object.prototype`
yields the truthy inherited value, anything else is `undefined` (`none`). -/
def QUALITY_PRESETS (name : String) : Option JsQualityObject :=
  if name = "performance" then some (qualityObjectOf performanceConfig)
  else if name = "balanced" then some (qualityObjectOf balancedConfig)
  else if name = "cinematic" then some (qualityObjectOf cinematicConfig)
  else if name ∈ protoChainNames then some inheritedJunkObject
  else none

/-- The numeric parameter record of `OceanSystem` (`DEFAULT_PARAMS` shape);
`windDirection` is kept in degrees exactly as `this.params` stores it. -/
structure OceanParams where
  windSpeed : ℚ
  windDirection : ℚ
  choppiness : ℚ
  foamIntensity : ℚ
  sunElevation : ℚ
  lodScale : ℚ
  reflectionStrength : ℚ
  reflectionDistortion : ℚ
  sunScatterStrength : ℚ
  foamScale : ℚ
deriving DecidableEq

/-- `DEFAULT_PARAMS` from `OceanSystem.js`. -/
def DEFAULT_PARAMS : OceanParams :=
  ⟨11, 140, 29/20, 13/25, 24, 1, 31/50, 2/125, 6/25, 17/100⟩

/-- `MathUtils.degToRad`. -/
noncomputable def toRadians (degrees : ℚ) : ℝ :=
  (degrees : ℝ) * Real.pi / 180

/-- The `#applyOceanParams` effect on the held `OceanFFT`:
`setWind(windSpeed, toRadians(windDirection))` and
`setChoppiness(choppiness)`. -/
noncomputable def applyOceanParamsFFT (params : OceanParams) (f : OceanFFTState) : OceanFFTState :=
  { f with
    windSpeed := max (1/100) params.windSpeed
    windDirection := toRadians params.windDirection
    needsSpectrumInit := true
    choppiness := max 0 params.choppiness }

/-- State of an `OceanSystem` instance.  GPU resources are tracked by
identity tokens: `#teardown` followed by reconstruction hands out a fresh
generation number, so reference identity of `fft` / `material` / `lodGrid`
across a call is token equality. -/
structure OceanSystemState where
  qualityPreset : String
  quality : JsQualityObject
  params : OceanParams
  fft : OceanFFTState
  fftId : ℕ
  materialId : ℕ
  lodGridId : ℕ
  lodPatches : List OceanPatch
  lodTransform : GridTransform
  rebuildCount : ℕ

/-- Body shared by the `OceanSystem` constructor and `rebuild(qualityPreset)`:
look the preset up with fallback `QUALITY_PRESETS[name] || QUALITY_PRESETS.balanced`
(a truthy inherited value suppresses the fallback, while `this.qualityPreset`
keeps `name`), tear the old resources down, then construct a fresh `OceanFFT`
(whose `optionalParameter` supplies 256/1000 for undefined resolution/size),
the material and the `OceanLODGrid` (destructuring defaults 1.0/0.5 for
undefined `baseCellSize`/`ringOverlap`; an undefined level list throws), all
of generation `generation`; finally apply `setLodScale(params.lodScale)` and
`#applyOceanParams`.  Either nested constructor may throw, which aborts the
rebuild. -/
noncomputable def OceanSystem.rebuildFrom (name : String) (params : OceanParams)
    (generation : ℕ) : Except String OceanSystemState :=
  let quality := (QUALITY_PRESETS name).getD (qualityObjectOf balancedConfig)
  (OceanFFT.mk
      { resolution := quality.fftResolution.getD 256
        size := quality.simulationSize.getD 1000
        windSpeed := params.windSpeed
        windDirection := toRadians params.windDirection
        choppiness := params.choppiness }).bind fun fft =>
    (OceanLODGrid.buildJs quality.levelSizes (quality.baseCellSize.getD 1)
        (quality.ringOverlap.getD (1/2))).map
      fun patches =>
        { qualityPreset := name
          quality := quality
          params := params
          fft := applyOceanParamsFFT params fft
          fftId := generation
          materialId := generation
          lodGridId := generation
          lodPatches := patches
          lodTransform :=
            OceanLODGrid.setLodScale params.lodScale
              (OceanLODGrid.setLodScale params.lodScale gridTransformInit)
          rebuildCount := generation }

/-- The `OceanSystem` constructor: store the params and preset name, then
run the initial `rebuild(this.qualityPreset)`. -/
noncomputable def OceanSystem.mk (qualityPreset : String) (params : OceanParams) :
    Except String OceanSystemState :=
  OceanSystem.rebuildFrom qualityPreset params 1

/-- `OceanSystem.rebuild(qualityPreset)` on an existing instance: the next
resource generation is strictly larger than every previously issued one. -/
noncomputable def OceanSystem.rebuild (name : String) (s : OceanSystemState) :
    Except String OceanSystemState :=
  OceanSystem.rebuildFrom name s.params (s.rebuildCount + 1)

/-- `OceanSystem.setQualityPreset(presetName)`: early-return when the name
matches the stored preset, otherwise a full rebuild. -/
noncomputable def OceanSystem.setQualityPreset (name : String) (s : OceanSystemState) :
    Except String OceanSystemState :=
  if name = s.qualityPreset then Except.ok s else OceanSystem.rebuild name s

/-! ### Simulation pass choreography (OceanFFT.update and helpers) -/

/-- The GPU buffers touched by `OceanFFT`'s simulation passes: the eight
render targets plus the CPU-seeded phase `DataTexture`. -/
inductive SimBuffer where
  | initialSpectrum
  | spectrum
  | pingPhaseBuf
  | pongPhaseBuf
  | pingTransform
  | pongTransform
  | displacementMap
  | normalMap
  | seedPhaseTexture
deriving DecidableEq

/-- One fullscreen pass: the simulation texture bound as input (none for the
uniform-only initial-spectrum pass) and the render target written. -/
structure SimPass where
  source : Option SimBuffer
  target : SimBuffer
deriving DecidableEq

/-- `#renderInitialSpectrum`: reads only uniforms, writes the initial
spectrum framebuffer. -/
def initialSpectrumPass : SimPass :=
  ⟨none, SimBuffer.initialSpectrum⟩

/-- `#renderWavePhase`: on the first call the seed `DataTexture` is bound,
afterwards the phase buffer selected by `pingPhase`; the target is always
the other phase buffer, and the caller flips `pingPhase` right after. -/
def phasePass (initialized pingPhase : Bool) : SimPass :=
  ⟨some
      (if initialized then
        (if pingPhase then SimBuffer.pingPhaseBuf else SimBuffer.pongPhaseBuf)
      else SimBuffer.seedPhaseTexture),
    if pingPhase then SimBuffer.pongPhaseBuf else SimBuffer.pingPhaseBuf⟩

/-- `#renderSpectrum`: reads the phase buffer selected by the (already
flipped) `pingPhase` flag, writes the spectrum framebuffer. -/
def spectrumPass (pingPhase : Bool) : SimPass :=
  ⟨some (if pingPhase then SimBuffer.pingPhaseBuf else SimBuffer.pongPhaseBuf),
    SimBuffer.spectrum⟩

/-- Horizontal Stockham pass `i` of `#renderSpectrumFFT`. -/
def horizontalPass (i : ℕ) : SimPass :=
  if i = 0 then ⟨some SimBuffer.spectrum, SimBuffer.pingTransform⟩
  else if i % 2 = 1 then ⟨some SimBuffer.pingTransform, SimBuffer.pongTransform⟩
  else ⟨some SimBuffer.pongTransform, SimBuffer.pingTransform⟩

/-- Vertical Stockham pass `i` (with `iterations ≤ i < 2 * iterations`) of
`#renderSpectrumFFT`; the final pass writes the displacement map. -/
def verticalPass (iterations i : ℕ) : SimPass :=
  if i = iterations * 2 - 1 then
    ⟨some (if iterations % 2 = 0 then SimBuffer.pingTransform else SimBuffer.pongTransform),
      SimBuffer.displacementMap⟩
  else if i % 2 = 1 then ⟨some SimBuffer.pingTransform, SimBuffer.pongTransform⟩
  else ⟨some SimBuffer.pongTransform, SimBuffer.pingTransform⟩

/-- The pass list of `#renderSpectrumFFT` for `iterations = log2(resolution)`. -/
def fftPasses (iterations : ℕ) : List SimPass :=
  (List.range iterations).map horizontalPass ++
    (List.range iterations).map fun j => verticalPass iterations (iterations + j)

/-- `#renderNormalMap`: reads the displacement map, writes the normal map. -/
def normalPass : SimPass :=
  ⟨some SimBuffer.displacementMap, SimBuffer.normalMap⟩

/-- The full ordered pass list issued by one `OceanFFT.update` call, given
the pre-call flag state. -/
def updatePasses (needsSpectrumInit initialized pingPhase : Bool) (iterations : ℕ) :
    List SimPass :=
  (if needsSpectrumInit then [initialSpectrumPass] else []) ++
    [phasePass initialized pingPhase, spectrumPass (!pingPhase)] ++
    fftPasses iterations ++ [normalPass]

/-! ### Phase evolution over the reals (fftShaders.js, phase shader) -/

/-- Dispersion relation of the phase shader:
`omega(k) = sqrt(G * k * (1 + k * k / (KM * KM)))` with `G = 9.81`,
`KM = 370`. -/
noncomputable def omegaDispersion (k : ℝ) : ℝ :=
  Real.sqrt ((981/100) * k * (1 + k * k / (370 * 370)))

/-- GLSL `mod(x, y) = x - y * floor(x / y)`. -/
noncomputable def glslMod (x y : ℝ) : ℝ :=
  x - y * ⌊x / y⌋

/-- Signed frequency index of the shaders:
`n = (c < resolution / 2) ? c : c - resolution`. -/
noncomputable def signedIndex (c resolution : ℝ) : ℝ :=
  if c < resolution * (1/2) then c else c - resolution

/-- Scalar wavenumber `length((2π * vec2(n, m)) / size)` of the phase
shader for the bin at integer fragment coordinates `(c.x, c.y)`. -/
noncomputable def binWaveNumber (cx cy resolution size : ℝ) : ℝ :=
  let n := signedIndex cx resolution
  let m := signedIndex cy resolution
  Real.sqrt ((2 * Real.pi * n / size) ^ 2 + (2 * Real.pi * m / size) ^ 2)

/-- One phase-shader step for a bin with scalar wavenumber `k`:
`phase = mod(phase + omega(length(waveVector)) * u_deltaTime, 2.0 * PI)`. -/
noncomputable def phaseStep (k deltaTime phase : ℝ) : ℝ :=
  glslMod (phase + omegaDispersion k * deltaTime) (2 * Real.pi)

/-- Iterated phase evolution of one bin over a list of (already clamped)
frame time steps. -/
noncomputable def evolvePhase (k : ℝ) (deltaTimes : List ℝ) (phase : ℝ) : ℝ :=
  deltaTimes.foldl (fun p dt => phaseStep k dt p) phase

/-- Seed phase generated by `#generateSeedPhaseTexture`:
`Math.random() * Math.PI * 2.0` with `r = Math.random() ∈ [0, 1)`. -/
noncomputable def seedPhase (r : ℝ) : ℝ :=
  r * Real.pi * 2

/-! ### PlanarReflectionPass (src/ocean/render/PlanarReflectionPass.js) -/

/-- Three.js `Vector3` with real components. -/
structure Vec3 where
  x : ℝ
  y : ℝ
  z : ℝ

/-- Three.js `Matrix4`, written row-major: `mRC` is row `R`, column `C`
(three.js stores column-major `elements`, e.g. `elements[12] = m03`). -/
structure Mat4 where
  m00 : ℝ
  m01 : ℝ
  m02 : ℝ
  m03 : ℝ
  m10 : ℝ
  m11 : ℝ
  m12 : ℝ
  m13 : ℝ
  m20 : ℝ
  m21 : ℝ
  m22 : ℝ
  m23 : ℝ
  m30 : ℝ
  m31 : ℝ
  m32 : ℝ
  m33 : ℝ

/-- The identity `Matrix4`. -/
noncomputable def mat4Id : Mat4 :=
  ⟨1, 0, 0, 0, 0, 1, 0, 0, 0, 0, 1, 0, 0, 0, 0, 1⟩

/-- A pure translation `Matrix4`. -/
noncomputable def mat4Translation (tx ty tz : ℝ) : Mat4 :=
  ⟨1, 0, 0, tx, 0, 1, 0, ty, 0, 0, 1, tz, 0, 0, 0, 1⟩

/-- `Vector3.setFromMatrixPosition`: the translation column
(`elements[12..14]`). -/
noncomputable def matPosition (m : Mat4) : Vec3 :=
  ⟨m.m03, m.m13, m.m23⟩

/-- Length of column `j`'s upper three entries (three.js
`setFromMatrixColumn(m, j).length()`). -/
noncomputable def columnLength (a b c : ℝ) : ℝ :=
  Real.sqrt (a * a + b * b + c * c)

/-- `Matrix4.extractRotation`: each of the first three columns is scaled by
the reciprocal of its length, the translation is zeroed. -/
noncomputable def extractRotation (me : Mat4) : Mat4 :=
  let scaleX := 1 / columnLength me.m00 me.m10 me.m20
  let scaleY := 1 / columnLength me.m01 me.m11 me.m21
  let scaleZ := 1 / columnLength me.m02 me.m12 me.m22
  { m00 := me.m00 * scaleX, m01 := me.m01 * scaleY, m02 := me.m02 * scaleZ, m03 := 0
    m10 := me.m10 * scaleX, m11 := me.m11 * scaleY, m12 := me.m12 * scaleZ, m13 := 0
    m20 := me.m20 * scaleX, m21 := me.m21 * scaleY, m22 := me.m22 * scaleZ, m23 := 0
    m30 := 0, m31 := 0, m32 := 0, m33 := 1 }

/-- `Vector3.applyMatrix4` (including the homogeneous divide). -/
noncomputable def applyMat4 (m : Mat4) (v : Vec3) : Vec3 :=
  let w := 1 / (m.m30 * v.x + m.m31 * v.y + m.m32 * v.z + m.m33)
  ⟨(m.m00 * v.x + m.m01 * v.y + m.m02 * v.z + m.m03) * w,
    (m.m10 * v.x + m.m11 * v.y + m.m12 * v.z + m.m13) * w,
    (m.m20 * v.x + m.m21 * v.y + m.m22 * v.z + m.m23) * w⟩

/-- `Vector3` subtraction. -/
noncomputable def vsub (a b : Vec3) : Vec3 :=
  ⟨a.x - b.x, a.y - b.y, a.z - b.z⟩

/-- `Vector3` dot product. -/
noncomputable def vdot (a b : Vec3) : ℝ :=
  a.x * b.x + a.y * b.y + a.z * b.z

/-- `Vector3.length`. -/
noncomputable def vlength (a : Vec3) : ℝ :=
  Real.sqrt (a.x * a.x + a.y * a.y + a.z * a.z)

/-- `Vector3.normalize`: `divideScalar(length || 1)` — a zero vector is
left unchanged. -/
noncomputable def vnormalize (a : Vec3) : Vec3 :=
  if vlength a = 0 then a else ⟨a.x / vlength a, a.y / vlength a, a.z / vlength a⟩

/-- Per-frame inputs of `PlanarReflectionPass.update`: the ocean root's
visibility and world matrix and the active camera's world matrix. -/
structure ReflectorInput where
  oceanRootVisible : Bool
  oceanRootMatrixWorld : Mat4
  cameraMatrixWorld : Mat4

/-- Observable state of a `PlanarReflectionPass`: the texture-space
projection matrix, the reflection render target's content generation
(bumped by every render into it), and the renderer's bound render target. -/
structure ReflectorState where
  textureMatrix : Mat4
  reflectionContentGen : ℕ
  boundRenderTarget : ℤ

/-- World position of the reflecting plane (`setFromMatrixPosition` of the
ocean root's world matrix). -/
noncomputable def mirrorWorldPosition (inp : ReflectorInput) : Vec3 :=
  matPosition inp.oceanRootMatrixWorld

/-- The reflecting plane's world normal: `(0, 1, 0)` pushed through the
rotation extracted from the ocean root's world matrix, normalized. -/
noncomputable def mirrorNormal (inp : ReflectorInput) : Vec3 :=
  vnormalize (applyMat4 (extractRotation inp.oceanRootMatrixWorld) ⟨0, 1, 0⟩)

/-- The view vector `mirrorWorldPosition - cameraWorldPosition` of
`PlanarReflectionPass.update`. -/
noncomputable def reflectorView (inp : ReflectorInput) : Vec3 :=
  vsub (mirrorWorldPosition inp) (matPosition inp.cameraMatrixWorld)

/-- Abstract result of the full mirror-camera render branch: the new
texture-space projection matrix is a function of the frame inputs only, one
render into the reflection target occurs, and the previously bound render
target is restored on exit.  The mirror-camera algebra (mirrored
position/target, Lengyel oblique clip) only feeds `textureMatrix`, which no
claim inspects, so it is abstracted into `reflectionRenderMatrix`. -/
noncomputable def reflectionRenderMatrix (inp : ReflectorInput) : Mat4 :=
  extractRotation inp.cameraMatrixWorld

/-- `PlanarReflectionPass.update`: early-out when the ocean root is hidden,
early-out (before any state write) when the camera is on the back side of
the reflecting plane (`view.dot(normal) > 0`); otherwise render the mirror
view into the reflection target and restore the previous render target. -/
noncomputable def PlanarReflectionPass.update (inp : ReflectorInput) (s : ReflectorState) :
    ReflectorState :=
  if !inp.oceanRootVisible then s
  else if vdot (reflectorView inp) (mirrorNormal inp) > 0 then s
  else
    { textureMatrix := reflectionRenderMatrix inp
      reflectionContentGen := s.reflectionContentGen + 1
      boundRenderTarget := s.boundRenderTarget }

/-- Concrete `OceanFFT` scalar state used to instantiate universally
quantified theorems (the constructor's field values for default options). -/
noncomputable def fftStateDefault : OceanFFTState :=
  ⟨256, 1000, 8/5, 12, 0, 1/60, false, true, true⟩

/-- Concrete `OceanSystem` state used to instantiate universally
quantified theorems (the balanced preset with default parameters). -/
noncomputable def oceanSystemStateDefault : OceanSystemState :=
  ⟨"balanced", qualityObjectOf balancedConfig, DEFAULT_PARAMS, fftStateDefault,
    1, 1, 1, [], gridTransformInit, 1⟩

/-- Concrete reflector frame input: visible ocean root at the world
origin (identity world matrix) and a camera one unit below the water
plane, i.e. strictly on the back side. -/
noncomputable def reflectorInputBelow : ReflectorInput :=
  ⟨true, mat4Id, mat4Translation 0 (-1) 0⟩

/-- Concrete reflector state (identity texture matrix, fresh target). -/
noncomputable def reflectorStateInit : ReflectorState :=
  ⟨mat4Id, 0, 0⟩

/-! ## Theorems -/

/-- A positive natural number passes the code's bitwise power-of-two test
`n &&& (n - 1) = 0` iff it is a power of two. -/
theorem land_pred_eq_zero_iff {n : ℕ} (hn : 1 ≤ n) :
    n &&& (n - 1) = 0 ↔ ∃ k, n = 2 ^ k := by
  constructor
  · intro h
    refine ⟨n.log2, ?_⟩
    by_contra hne
    have hpow : 2 ^ n.log2 ≤ n := Nat.log2_self_le (by omega)
    have hlt : n < 2 ^ (n.log2 + 1) := Nat.lt_log2_self
    have hgt : 2 ^ n.log2 < n := lt_of_le_of_ne hpow (fun hh => hne hh.symm)
    have hb1 : n.testBit n.log2 = true := by
      rw [Nat.testBit_to_div_mod]
      have hdiv : n / 2 ^ n.log2 = 1 := by
        have h1 : 1 ≤ n / 2 ^ n.log2 :=
          (Nat.one_le_div_iff (Nat.pos_pow_of_pos _ (by omega))).mpr hpow
        have h2 : n / 2 ^ n.log2 < 2 := by
          rw [Nat.div_lt_iff_lt_mul (Nat.pos_pow_of_pos _ (by omega))]
          calc n < 2 ^ (n.log2 + 1) := hlt
          _ = 2 ^ n.log2 * 2 := by rw [Nat.pow_succ]
          _ = 2 * 2 ^ n.log2 := by ring
        omega
      simp [hdiv]
    have hb2 : (n - 1).testBit n.log2 = true := by
      rw [Nat.testBit_to_div_mod]
      have hdiv : (n - 1) / 2 ^ n.log2 = 1 := by
        have hle : 2 ^ n.log2 ≤ n - 1 := by omega
        have h1 : 1 ≤ (n - 1) / 2 ^ n.log2 :=
          (Nat.one_le_div_iff (Nat.pos_pow_of_pos _ (by omega))).mpr hle
        have h2 : (n - 1) / 2 ^ n.log2 < 2 := by
          rw [Nat.div_lt_iff_lt_mul (Nat.pos_pow_of_pos _ (by omega))]
          have hx : n - 1 < 2 ^ (n.log2 + 1) := by omega
          calc n - 1 < 2 ^ (n.log2 + 1) := hx
          _ = 2 ^ n.log2 * 2 := by rw [Nat.pow_succ]
          _ = 2 * 2 ^ n.log2 := by ring
        omega
      simp [hdiv]
    have hbit : (n &&& (n - 1)).testBit n.log2 = true := by
      rw [Nat.testBit_land, hb1, hb2]; rfl
    rw [h, Nat.zero_testBit] at hbit
    exact Bool.noConfusion hbit
  · rintro ⟨k, rfl⟩
    apply Nat.eq_of_testBit_eq
    intro i
    rw [Nat.testBit_land, Nat.zero_testBit, Nat.testBit_two_pow_sub_one]
    by_cases hik : i = k
    · subst hik; simp
    · rw [Nat.testBit_two_pow_of_ne (fun hh => hik hh.symm)]; rfl

/-- A succeeding `Except` computation carries a value. -/
theorem isOk_exists {ε α : Type _} {e : Except ε α} (h : e.isOk = true) :
    ∃ a, e = Except.ok a := by
  cases e with
  | ok a => exact ⟨a, rfl⟩
  | error e => simp [Except.isOk, Except.toBool] at h

/-- The LOD grid build succeeds exactly on level lists with at least two
entries. -/
theorem lodBuild_isOk_iff (levels : List ℚ) (baseCellSize ringOverlap : ℚ) :
    (OceanLODGrid.build levels baseCellSize ringOverlap).isOk ↔ 2 ≤ levels.length := by
  unfold OceanLODGrid.build
  split
  · rename_i h
    exact iff_of_false (by simp [Except.isOk, Except.toBool]) (by omega)
  · rename_i h
    exact iff_of_true (by simp [Except.isOk, Except.toBool]) (by omega)

/-- The success of the `OceanFFT` constructor is exactly the (32-bit
wrapped) bitwise test on `max 2 ⌊resolution⌋` — no other option is
inspected. -/
theorem mk_isOk_eq_bittest (options : OceanFFTOptions) :
    (OceanFFT.mk options).isOk =
      decide (jsAnd (max 2 ⌊options.resolution⌋) (max 2 ⌊options.resolution⌋ - 1) = 0) := by
  unfold OceanFFT.mk ensurePowerOfTwo
  by_cases h : jsAnd (max 2 ⌊options.resolution⌋) (max 2 ⌊options.resolution⌋ - 1) = 0
  · rw [if_neg (not_not_intro h)]
    simp [Except.map, Except.isOk, Except.toBool, h]
  · rw [if_pos h]
    simp [Except.map, Except.isOk, Except.toBool, h]

/-- Restates `mk_isOk_eq_bittest` through any equation for the resolution
field, so concrete resolutions can be substituted without carrying the
whole options literal. -/
theorem mk_isOk_resolution_only (resolution : ℚ) (options : OceanFFTOptions)
    (h : options.resolution = resolution) :
    (OceanFFT.mk options).isOk =
      decide (jsAnd (max 2 ⌊resolution⌋) (max 2 ⌊resolution⌋ - 1) = 0) := by
  rw [mk_isOk_eq_bittest, h]

/-- For 32-bit-representable nonnegative operands, the JS bitwise AND is
zero exactly when the unbounded natural AND of the values is zero. -/
theorem jsAnd_eq_zero_iff {a b : ℤ} (ha : 0 ≤ a) (ha32 : a < 4294967296)
    (hb : 0 ≤ b) (hb32 : b < 4294967296) :
    jsAnd a b = 0 ↔ a.toNat &&& b.toNat = 0 := by
  unfold jsAnd toUint32
  rw [Int.emod_eq_of_lt ha ha32, Int.emod_eq_of_lt hb hb32]
  dsimp only
  split_ifs with hr
  · exact_mod_cast Iff.rfl
  · refine iff_of_false (fun h => ?_) (fun h => hr (by omega))
    have hle : a.toNat &&& b.toNat ≤ a.toNat := Nat.and_le_left
    have haN : a.toNat < 4294967296 := by omega
    omega

/-- C1 counterexample: constructing the simulation with resolution 256 and
domain size -5 succeeds, although the claim requires a ConfigurationError
for every pair whose domain size is ≤ 0. -/
theorem c1_size_never_rejected :
    (OceanFFT.mk { resolution := 256, size := -5 }).isOk = true ∧ (-5 : ℚ) ≤ 0 :=
  ⟨rfl, by norm_num⟩

/-- C1 (amended): construction of the ocean simulation fails exactly when
the JavaScript 32-bit test `(iv & (iv - 1)) !== 0` fires on
`iv = Math.max(2, Math.floor(resolution))`; for every resolution whose
clamped value is 32-bit representable — all realistic ones — that is
exactly "iv is not a power of two", while beyond 2^32 the ToInt32 wrap can
accept non-powers such as 2^32 + 1.  The domain size is never validated —
changing it cannot affect whether construction throws (the constructor
stores it as-is and `setSize` clamps instead of throwing). -/
theorem c1_mk_fails_iff_not_power_of_two (options : OceanFFTOptions) :
    ((OceanFFT.mk options).isOk ↔
        jsAnd (max 2 ⌊options.resolution⌋) (max 2 ⌊options.resolution⌋ - 1) = 0) ∧
      (max 2 ⌊options.resolution⌋ < 4294967296 →
        ((OceanFFT.mk options).isOk ↔ ∃ k, (max 2 ⌊options.resolution⌋).toNat = 2 ^ k)) ∧
      (∀ q : ℚ, (OceanFFT.mk { options with size := q }).isOk = (OceanFFT.mk options).isOk) ∧
      (OceanFFT.mk { resolution := 4294967297 }).isOk = true := by
  have h2 : (2 : ℤ) ≤ max 2 ⌊options.resolution⌋ := le_max_left _ _
  refine ⟨?_, fun h32 => ?_, fun q => ?_, rfl⟩
  · rw [show ((OceanFFT.mk options).isOk ↔
        jsAnd (max 2 ⌊options.resolution⌋) (max 2 ⌊options.resolution⌋ - 1) = 0) =
        ((OceanFFT.mk options).isOk = true ↔
          jsAnd (max 2 ⌊options.resolution⌋) (max 2 ⌊options.resolution⌋ - 1) = 0) from rfl]
    rw [mk_isOk_eq_bittest, decide_eq_true_eq]
  · have hge : (1 : ℕ) ≤ (max 2 ⌊options.resolution⌋).toNat := by omega
    have hsub : (max 2 ⌊options.resolution⌋ - 1).toNat =
        (max 2 ⌊options.resolution⌋).toNat - 1 := by omega
    rw [show ((OceanFFT.mk options).isOk ↔
        ∃ k, (max 2 ⌊options.resolution⌋).toNat = 2 ^ k) =
        ((OceanFFT.mk options).isOk = true ↔
          ∃ k, (max 2 ⌊options.resolution⌋).toNat = 2 ^ k) from rfl]
    rw [mk_isOk_eq_bittest, decide_eq_true_eq,
      jsAnd_eq_zero_iff (by omega) h32 (by omega) (by omega), hsub]
    exact land_pred_eq_zero_iff hge
  · rw [mk_isOk_eq_bittest, mk_isOk_eq_bittest]

/-- Witness for the amended C1 at the default options (resolution 256,
whose clamped value is 32-bit representable). -/
theorem c1_mk_fails_iff_not_power_of_two_witness :
    max 2 ⌊(256 : ℚ)⌋ < 4294967296 ∧
      ((OceanFFT.mk {}).isOk ↔ ∃ k, (max 2 ⌊(256 : ℚ)⌋).toNat = 2 ^ k) :=
  ⟨by decide, (c1_mk_fails_iff_not_power_of_two {}).2.1 (by decide)⟩

/-- C2 counterexample: the two-element strictly decreasing level-size list
`[100, 50]` builds successfully, although the claim requires a
ConfigurationError for every array that is not strictly increasing. -/
theorem c2_no_monotonicity_check :
    (OceanLODGrid.build [100, 50] (6/5) (1/2)).isOk = true ∧
      ¬ List.Chain' (· < ·) [(100 : ℚ), 50] :=
  ⟨rfl, fun hc => absurd (List.chain'_cons.mp hc).1 (by norm_num)⟩

/-- C2 (amended): building the LOD grid fails exactly when the level-size
array has fewer than 2 entries (the check runs before any patch is
created, so a failing build produces no patches); a strictly-increasing
check does not exist, so any array of length ≥ 2 builds successfully
regardless of its ordering. -/
theorem c2_build_ok_iff_length (levels : List ℚ) (baseCellSize ringOverlap : ℚ) :
    (OceanLODGrid.build levels baseCellSize ringOverlap).isOk ↔ 2 ≤ levels.length :=
  lodBuild_isOk_iff levels baseCellSize ringOverlap

/-- C3 counterexample: with snap size 1 and camera at x = 0.9 the grid
origin x is set to 0 (the floor multiple), but the multiple of 1 nearest
to 0.9 is 1 — so `update` does not snap to the nearest multiple. -/
theorem c3_not_nearest_multiple :
    (OceanLODGrid.update 1 (9/10) 0 gridTransformInit).posX = 0 ∧
      ¬ IsNearestMultiple 1 (9/10)
        ((OceanLODGrid.update 1 (9/10) 0 gridTransformInit).posX) := by
  have hx : (OceanLODGrid.update 1 (9/10) 0 gridTransformInit).posX = 0 := by
    show (⌊(9/10 : ℚ) / 1⌋ : ℚ) * 1 = 0
    norm_num
  refine ⟨hx, ?_⟩
  rw [hx]
  rintro ⟨-, h⟩
  have h1 := h 1
  have e0 : |(9/10 : ℚ) - 0| = 9/10 := by rw [abs_of_nonneg] <;> norm_num
  have e1 : |(9/10 : ℚ) - (1 : ℤ) * 1| = 1/10 := by rw [abs_of_nonpos] <;> norm_num
  rw [e0, e1] at h1
  linarith

/-- C3 (amended): for a positive snap size, `update` sets the grid group's
x and z to the largest multiple of the base cell size that does not exceed
the camera coordinate (floor snapping, not nearest), and changes nothing
else about the grid transform. -/
theorem c3_update_floor_snapping (snapSize cameraX cameraZ : ℚ) (t : GridTransform)
    (h : 0 < snapSize) :
    (∃ k : ℤ, (OceanLODGrid.update snapSize cameraX cameraZ t).posX = (k : ℚ) * snapSize ∧
        (k : ℚ) * snapSize ≤ cameraX ∧ cameraX < (k : ℚ) * snapSize + snapSize) ∧
      (∃ k : ℤ, (OceanLODGrid.update snapSize cameraX cameraZ t).posZ = (k : ℚ) * snapSize ∧
        (k : ℚ) * snapSize ≤ cameraZ ∧ cameraZ < (k : ℚ) * snapSize + snapSize) ∧
      (OceanLODGrid.update snapSize cameraX cameraZ t).posY = t.posY ∧
      (OceanLODGrid.update snapSize cameraX cameraZ t).scaleX = t.scaleX ∧
      (OceanLODGrid.update snapSize cameraX cameraZ t).scaleY = t.scaleY ∧
      (OceanLODGrid.update snapSize cameraX cameraZ t).scaleZ = t.scaleZ := by
  have hfloor : ∀ v : ℚ, (⌊v / snapSize⌋ : ℚ) * snapSize ≤ v ∧
      v < (⌊v / snapSize⌋ : ℚ) * snapSize + snapSize := by
    intro v
    constructor
    · exact (le_div_iff₀ h).mp (Int.floor_le (v / snapSize))
    · have hv := (div_lt_iff₀ h).mp (Int.lt_floor_add_one (v / snapSize))
      push_cast at hv ⊢
      linarith
  exact ⟨⟨⌊cameraX / snapSize⌋, rfl, (hfloor cameraX).1, (hfloor cameraX).2⟩,
    ⟨⌊cameraZ / snapSize⌋, rfl, (hfloor cameraZ).1, (hfloor cameraZ).2⟩,
    rfl, rfl, rfl, rfl⟩

/-- Witness for the amended C3 at snap size 1 and camera (0.9, 0). -/
theorem c3_update_floor_snapping_witness :
    (0 : ℚ) < 1 ∧
      ((∃ k : ℤ, (OceanLODGrid.update 1 (9/10) 0 gridTransformInit).posX = (k : ℚ) * 1 ∧
          (k : ℚ) * 1 ≤ 9/10 ∧ (9/10 : ℚ) < (k : ℚ) * 1 + 1) ∧
        (∃ k : ℤ, (OceanLODGrid.update 1 (9/10) 0 gridTransformInit).posZ = (k : ℚ) * 1 ∧
          (k : ℚ) * 1 ≤ 0 ∧ (0 : ℚ) < (k : ℚ) * 1 + 1) ∧
        (OceanLODGrid.update 1 (9/10) 0 gridTransformInit).posY = gridTransformInit.posY ∧
        (OceanLODGrid.update 1 (9/10) 0 gridTransformInit).scaleX = gridTransformInit.scaleX ∧
        (OceanLODGrid.update 1 (9/10) 0 gridTransformInit).scaleY = gridTransformInit.scaleY ∧
        (OceanLODGrid.update 1 (9/10) 0 gridTransformInit).scaleZ = gridTransformInit.scaleZ) :=
  ⟨by norm_num, c3_update_floor_snapping 1 (9/10) 0 gridTransformInit (by norm_num)⟩

/-- C7: `OceanFFT.update` stores `min(0.1, max(1/240, deltaTime))` as the
integration step — inputs below 1/240 become 1/240, inputs above 0.1
become 0.1, in-range inputs pass through — and, being a total function,
never rejects any `deltaTime`. -/
theorem c7_deltaTime_clamp (s : OceanFFTState) (deltaTime : ℚ) :
    (OceanFFT.update s deltaTime).deltaTime = min (1/10) (max (1/240) deltaTime) ∧
      (deltaTime < 1/240 → (OceanFFT.update s deltaTime).deltaTime = 1/240) ∧
      (1/10 < deltaTime → (OceanFFT.update s deltaTime).deltaTime = 1/10) ∧
      (1/240 ≤ deltaTime → deltaTime ≤ 1/10 →
        (OceanFFT.update s deltaTime).deltaTime = deltaTime) ∧
      1/240 ≤ (OceanFFT.update s deltaTime).deltaTime ∧
      (OceanFFT.update s deltaTime).deltaTime ≤ 1/10 := by
  have e : (OceanFFT.update s deltaTime).deltaTime = min (1/10) (max (1/240) deltaTime) := rfl
  rw [e]
  refine ⟨rfl, fun h => ?_, fun h => ?_, fun h1 h2 => ?_, ?_, ?_⟩
  · rw [max_eq_left h.le, min_eq_right (by norm_num)]
  · rw [max_eq_right (by linarith), min_eq_left h.le]
  · rw [max_eq_right h1, min_eq_right h2]
  · exact le_min (by norm_num) (le_max_left _ _)
  · exact min_le_left _ _

/-- Witness for C7 at `deltaTime = 0` (below the lower clamp). -/
theorem c7_deltaTime_clamp_witness :
    (0 : ℚ) < 1/240 ∧ (OceanFFT.update fftStateDefault 0).deltaTime = 1/240 :=
  ⟨by norm_num, (c7_deltaTime_clamp fftStateDefault 0).2.1 (by norm_num)⟩

/-- C10: `setLodScale(s)` writes `max(0.5, min(2.5, s))` to the x and z
scale of the grid group, always resets the vertical scale to exactly 1,
and leaves the group position untouched — so the lodScale parameter never
changes displayed wave height. -/
theorem c10_setLodScale_clamps_horizontal (scale : ℚ) (t : GridTransform) :
    (OceanLODGrid.setLodScale scale t).scaleX = max (1/2) (min (5/2) scale) ∧
      (OceanLODGrid.setLodScale scale t).scaleZ = (OceanLODGrid.setLodScale scale t).scaleX ∧
      (OceanLODGrid.setLodScale scale t).scaleY = 1 ∧
      1/2 ≤ (OceanLODGrid.setLodScale scale t).scaleX ∧
      (OceanLODGrid.setLodScale scale t).scaleX ≤ 5/2 ∧
      (OceanLODGrid.setLodScale scale t).posX = t.posX ∧
      (OceanLODGrid.setLodScale scale t).posY = t.posY ∧
      (OceanLODGrid.setLodScale scale t).posZ = t.posZ :=
  ⟨rfl, rfl, rfl, le_max_left _ _, max_le (by norm_num) (min_le_left _ _), rfl, rfl, rfl⟩

/-- Rebuilding never fails (every preset bundle — including the balanced
fallback — has a power-of-two resolution and a 7-entry level list) and the
produced state carries the requested name, the looked-up quality bundle
and a fresh resource generation. -/
theorem rebuildFrom_ok (name : String) (params : OceanParams) (generation : ℕ)
    (cfg : QualityConfig)
    (hq : (QUALITY_PRESETS name).getD (qualityObjectOf balancedConfig) = qualityObjectOf cfg)
    (hcfg : cfg = performanceConfig ∨ cfg = balancedConfig ∨ cfg = cinematicConfig) :
    ∃ t, OceanSystem.rebuildFrom name params generation = Except.ok t ∧
      t.qualityPreset = name ∧
      t.quality = qualityObjectOf cfg ∧
      t.params = params ∧ t.rebuildCount = generation ∧
      t.fftId = generation ∧ t.materialId = generation ∧ t.lodGridId = generation := by
  obtain ⟨f, hf⟩ := isOk_exists
    (e := OceanFFT.mk
      { resolution := (qualityObjectOf cfg).fftResolution.getD 256
        size := (qualityObjectOf cfg).simulationSize.getD 1000
        windSpeed := params.windSpeed
        windDirection := toRadians params.windDirection
        choppiness := params.choppiness })
    (by rw [mk_isOk_resolution_only cfg.fftResolution _ rfl]
        rcases hcfg with h | h | h <;> subst h <;> decide)
  obtain ⟨patches, hp⟩ := isOk_exists
    (e := OceanLODGrid.buildJs (qualityObjectOf cfg).levelSizes
      ((qualityObjectOf cfg).baseCellSize.getD 1)
      ((qualityObjectOf cfg).ringOverlap.getD (1/2)))
    (by rcases hcfg with h | h | h <;> subst h <;> decide)
  have hmain : OceanSystem.rebuildFrom name params generation = Except.ok
      { qualityPreset := name
        quality := qualityObjectOf cfg
        params := params
        fft := applyOceanParamsFFT params f
        fftId := generation
        materialId := generation
        lodGridId := generation
        lodPatches := patches
        lodTransform := OceanLODGrid.setLodScale params.lodScale
          (OceanLODGrid.setLodScale params.lodScale gridTransformInit)
        rebuildCount := generation } := by
    simp only [OceanSystem.rebuildFrom]
    rw [hq, hf, hp]
    rfl
  exact ⟨_, hmain, rfl, rfl, rfl, rfl, rfl, rfl, rfl⟩

/-- Whatever object the preset lookup produced, a successful rebuild
stores the requested name in `qualityPreset` (the name is written before
either nested constructor can throw). -/
theorem rebuildFrom_preset_of_ok {name : String} {params : OceanParams}
    {generation : ℕ} {t : OceanSystemState}
    (h : OceanSystem.rebuildFrom name params generation = Except.ok t) :
    t.qualityPreset = name := by
  simp only [OceanSystem.rebuildFrom] at h
  revert h
  cases OceanFFT.mk
      { resolution :=
          ((QUALITY_PRESETS name).getD (qualityObjectOf balancedConfig)).fftResolution.getD 256
        size :=
          ((QUALITY_PRESETS name).getD (qualityObjectOf balancedConfig)).simulationSize.getD 1000
        windSpeed := params.windSpeed
        windDirection := toRadians params.windDirection
        choppiness := params.choppiness } with
  | error e =>
    intro h
    simp [Except.bind] at h
  | ok f =>
    cases OceanLODGrid.buildJs
        ((QUALITY_PRESETS name).getD (qualityObjectOf balancedConfig)).levelSizes
        (((QUALITY_PRESETS name).getD (qualityObjectOf balancedConfig)).baseCellSize.getD 1)
        (((QUALITY_PRESETS name).getD (qualityObjectOf balancedConfig)).ringOverlap.getD (1/2))
        with
    | error e =>
      intro h
      simp [Except.bind, Except.map] at h
    | ok patches =>
      intro h
      simp only [Except.bind, Except.map] at h
      obtain rfl := Except.ok.inj h
      rfl

/-- C8: a second `setQualityPreset` call with the same preset name returns
the held state unchanged — in particular the `fft`, `material` and
`lodGrid` resource generations and the rebuild counter of the returned
state are identical, so no teardown or rebuild happened. -/
theorem c8_setQualityPreset_idempotent (name : String) (s s1 : OceanSystemState)
    (h : OceanSystem.setQualityPreset name s = Except.ok s1) :
    OceanSystem.setQualityPreset name s1 = Except.ok s1 := by
  unfold OceanSystem.setQualityPreset at h ⊢
  by_cases hn : name = s.qualityPreset
  · rw [if_pos hn] at h
    obtain rfl : s = s1 := by injection h
    rw [if_pos hn]
  · rw [if_neg hn] at h
    unfold OceanSystem.rebuild at h
    have htn := rebuildFrom_preset_of_ok h
    rw [if_pos htn.symm]

/-- Witness for C8: the balanced default state, asked for `"balanced"`
twice. -/
theorem c8_setQualityPreset_idempotent_witness :
    OceanSystem.setQualityPreset "balanced" oceanSystemStateDefault =
        Except.ok oceanSystemStateDefault ∧
      OceanSystem.setQualityPreset "balanced" oceanSystemStateDefault =
        Except.ok oceanSystemStateDefault :=
  ⟨rfl, c8_setQualityPreset_idempotent "balanced" oceanSystemStateDefault
    oceanSystemStateDefault rfl⟩

/-- C9 counterexample: the unknown preset name `"constructor"` hits the
inherited, truthy `Object.prototype.constructor`, so the
`|| QUALITY_PRESETS.balanced` fallback is skipped; `quality.levelSizes`
is then undefined and the `OceanLODGrid` constructor throws — so
construction with this unknown preset name does fail, and the balanced
values are not used. -/
theorem c9_inherited_name_fails :
    (OceanSystem.mk "constructor" DEFAULT_PARAMS).isOk = false ∧
      "constructor" ≠ "performance" ∧ "constructor" ≠ "balanced" ∧
      "constructor" ≠ "cinematic" :=
  ⟨rfl, by decide, by decide, by decide⟩

/-- C9 (amended): for every preset name that is neither one of the three
preset keys nor a property name inherited from `Object.prototype`,
constructing `OceanSystem` or calling `rebuild` does not fail: the
balanced preset's configuration values are used, the stored
`qualityPreset` keeps the unknown name, and a subsequent
`setQualityPreset` with that same name is a no-op.  (For inherited names
such as `"constructor"` the truthy prototype value suppresses the
balanced fallback and the rebuild throws in `OceanLODGrid#build`.) -/
theorem c9_unknown_preset_falls_back (name : String) (params : OceanParams)
    (s : OceanSystemState) (h1 : name ≠ "performance") (h2 : name ≠ "balanced")
    (h3 : name ≠ "cinematic") (h4 : name ∉ protoChainNames) :
    (∃ t, OceanSystem.mk name params = Except.ok t ∧
        t.quality = qualityObjectOf balancedConfig ∧
        t.qualityPreset = name ∧ OceanSystem.setQualityPreset name t = Except.ok t) ∧
      ∃ t, OceanSystem.rebuild name s = Except.ok t ∧
        t.quality = qualityObjectOf balancedConfig ∧
        t.qualityPreset = name ∧ OceanSystem.setQualityPreset name t = Except.ok t := by
  have hq : (QUALITY_PRESETS name).getD (qualityObjectOf balancedConfig) =
      qualityObjectOf balancedConfig := by
    unfold QUALITY_PRESETS
    rw [if_neg h1, if_neg h2, if_neg h3, if_neg h4]
    rfl
  constructor
  · obtain ⟨t, ht, htn, htq, -⟩ :=
      rebuildFrom_ok name params 1 balancedConfig hq (Or.inr (Or.inl rfl))
    refine ⟨t, ht, htq, htn, ?_⟩
    unfold OceanSystem.setQualityPreset
    rw [if_pos htn.symm]
  · obtain ⟨t, ht, htn, htq, -⟩ :=
      rebuildFrom_ok name s.params (s.rebuildCount + 1) balancedConfig hq (Or.inr (Or.inl rfl))
    refine ⟨t, ht, htq, htn, ?_⟩
    unfold OceanSystem.setQualityPreset
    rw [if_pos htn.symm]

/-- Witness for the amended C9 at the unknown preset name `"ultra"`,
which is neither a preset key nor inherited from `Object.prototype`. -/
theorem c9_unknown_preset_falls_back_witness :
    ("ultra" ≠ "performance" ∧ "ultra" ≠ "balanced" ∧ "ultra" ≠ "cinematic" ∧
        "ultra" ∉ protoChainNames) ∧
      ((∃ t, OceanSystem.mk "ultra" DEFAULT_PARAMS = Except.ok t ∧
          t.quality = qualityObjectOf balancedConfig ∧ t.qualityPreset = "ultra" ∧
          OceanSystem.setQualityPreset "ultra" t = Except.ok t) ∧
        ∃ t, OceanSystem.rebuild "ultra" oceanSystemStateDefault = Except.ok t ∧
          t.quality = qualityObjectOf balancedConfig ∧ t.qualityPreset = "ultra" ∧
          OceanSystem.setQualityPreset "ultra" t = Except.ok t) :=
  ⟨⟨by decide, by decide, by decide, by decide⟩,
    c9_unknown_preset_falls_back "ultra" DEFAULT_PARAMS oceanSystemStateDefault
      (by decide) (by decide) (by decide) (by decide)⟩

/-- C6: in every pass issued by an `OceanFFT.update` call the bound input
texture differs from the written render target — in particular neither the
phase pair nor the transform pair is ever read and written in the same
pass — and the phase pair's role-toggle flag advances exactly once per
update (the single flip in `#renderWavePhase`). -/
theorem c6_no_read_write_hazard (needsSpectrumInit initialized pingPhase : Bool)
    (iterations : ℕ) :
    (∀ p ∈ updatePasses needsSpectrumInit initialized pingPhase iterations,
        p.source ≠ some p.target) ∧
      ∀ (s : OceanFFTState) (dt : ℚ), (OceanFFT.update s dt).pingPhase = !s.pingPhase := by
  refine ⟨?_, fun s dt => rfl⟩
  intro p hp
  unfold updatePasses fftPasses at hp
  cases needsSpectrumInit <;> simp at hp
  · rcases hp with rfl | rfl | ⟨i, -, rfl⟩ | ⟨j, -, rfl⟩ | rfl
    · cases initialized <;> cases pingPhase <;> decide
    · cases pingPhase <;> decide
    · unfold horizontalPass; split_ifs <;> decide
    · unfold verticalPass; split_ifs <;> decide
    · decide
  · rcases hp with rfl | rfl | rfl | ⟨i, -, rfl⟩ | ⟨j, -, rfl⟩ | rfl
    · decide
    · cases initialized <;> cases pingPhase <;> decide
    · cases pingPhase <;> decide
    · unfold horizontalPass; split_ifs <;> decide
    · unfold verticalPass; split_ifs <;> decide
    · decide

/-- Witness for C6: the phase pass of a warm (initialized, ping) update at
resolution 256 (8 iterations) is in the pass list and reads/writes
distinct buffers. -/
theorem c6_no_read_write_hazard_witness :
    (phasePass true true ∈ updatePasses false true true 8 ∧
        (phasePass true true).source ≠ some (phasePass true true).target) ∧
      (OceanFFT.update fftStateDefault (1/60)).pingPhase = !fftStateDefault.pingPhase :=
  ⟨⟨by decide, (c6_no_read_write_hazard false true true 8).1 (phasePass true true) (by decide)⟩,
    (c6_no_read_write_hazard false true true 8).2 fftStateDefault (1/60)⟩

/-- GLSL `mod` with a positive modulus lands in `[0, y)`. -/
theorem glslMod_mem_Ico (x y : ℝ) (hy : 0 < y) : glslMod x y ∈ Set.Ico 0 y := by
  have hrepr : glslMod x y = y * Int.fract (x / y) := by
    unfold glslMod Int.fract
    field_simp
  rw [hrepr]
  constructor
  · exact mul_nonneg hy.le (Int.fract_nonneg _)
  · calc y * Int.fract (x / y) < y * 1 :=
      mul_lt_mul_of_pos_left (Int.fract_lt_one _) hy
    _ = y := mul_one y

/-- Phases in `[0, 2π)` are closed under any number of phase-shader steps
with arbitrary time steps. -/
theorem evolvePhase_mem_Ico (k : ℝ) (deltaTimes : List ℝ) (phase : ℝ)
    (h : phase ∈ Set.Ico 0 (2 * Real.pi)) :
    evolvePhase k deltaTimes phase ∈ Set.Ico 0 (2 * Real.pi) := by
  induction deltaTimes generalizing phase with
  | nil => exact h
  | cons dt rest ih => exact ih _ (glslMod_mem_Ico _ _ (by positivity))

/-- C5: the phase shader advances a bin's phase by
`mod(phase + omega(k) * deltaTime, 2π)`; any seed phase
`Math.random() * 2π` (with `Math.random() ∈ [0, 1)`) lies in `[0, 2π)`,
and the phase stays in `[0, 2π)` after any number of evolution steps with
arbitrary — arbitrarily large — time steps. -/
theorem c5_phase_mod_invariant (k r : ℝ) (deltaTimes : List ℝ)
    (hr : r ∈ Set.Ico (0 : ℝ) 1) :
    seedPhase r ∈ Set.Ico 0 (2 * Real.pi) ∧
      evolvePhase k deltaTimes (seedPhase r) ∈ Set.Ico 0 (2 * Real.pi) ∧
      ∀ phase dt : ℝ, phaseStep k dt phase =
        glslMod (phase + omegaDispersion k * dt) (2 * Real.pi) := by
  have hseed : seedPhase r ∈ Set.Ico 0 (2 * Real.pi) := by
    unfold seedPhase
    constructor
    · have := Real.pi_pos
      nlinarith [hr.1]
    · have := Real.pi_pos
      nlinarith [hr.2]
  exact ⟨hseed, evolvePhase_mem_Ico k deltaTimes _ hseed, fun phase dt => rfl⟩

/-- Witness for C5 at seed draw 0, wavenumber 0 and a single 1-second
step. -/
theorem c5_phase_mod_invariant_witness :
    (0 : ℝ) ∈ Set.Ico (0 : ℝ) 1 ∧
      (seedPhase 0 ∈ Set.Ico 0 (2 * Real.pi) ∧
        evolvePhase 0 [1] (seedPhase 0) ∈ Set.Ico 0 (2 * Real.pi) ∧
        ∀ phase dt : ℝ, phaseStep 0 dt phase =
          glslMod (phase + omegaDispersion 0 * dt) (2 * Real.pi)) :=
  ⟨⟨le_refl 0, by norm_num⟩, c5_phase_mod_invariant 0 0 [1] ⟨le_refl 0, by norm_num⟩⟩

/-- C4: for every camera strictly on the back side of the reflecting plane
(view vector dot plane normal > 0), `PlanarReflectionPass.update` returns
the state unchanged — no render-target write happens, and the reflection
texture content, the texture-space projection matrix and the renderer's
bound render target are all left as they were. -/
theorem c4_backside_camera_skips (inp : ReflectorInput) (s : ReflectorState)
    (h : vdot (reflectorView inp) (mirrorNormal inp) > 0) :
    PlanarReflectionPass.update inp s = s := by
  unfold PlanarReflectionPass.update
  cases hv : inp.oceanRootVisible
  · simp [hv]
  · simp only [hv, Bool.not_true, Bool.false_eq_true, if_false]
    rw [if_pos h]

/-- Witness for C4: identity ocean root, camera at (0, -1, 0). -/
theorem c4_backside_camera_skips_witness :
    vdot (reflectorView reflectorInputBelow) (mirrorNormal reflectorInputBelow) > 0 ∧
      PlanarReflectionPass.update reflectorInputBelow reflectorStateInit =
        reflectorStateInit := by
  have hdot : vdot (reflectorView reflectorInputBelow) (mirrorNormal reflectorInputBelow) > 0 := by
    norm_num [reflectorInputBelow, reflectorView, mirrorWorldPosition, mirrorNormal,
      matPosition, mat4Id, mat4Translation, vsub, vdot, vnormalize, vlength, applyMat4,
      extractRotation, columnLength, Real.sqrt_one]
  exact ⟨hdot, c4_backside_camera_skips reflectorInputBelow reflectorStateInit hdot⟩

end OceanDemo
